import Mathlib

/-!
Verification development for the sample-streaming-player repository.

The repository ships three copies of a small token-lifecycle manager:

* react/hlsApi.js, createTokenRefreshFunction: a closure over
  (playlistToken, playlistExpiry) whose returned async function refreshes
  the token when it is falsy or about to expire, rethrowing fetch errors.
* flutter/lib/hls_api.dart, TokenRefreshFunction.refreshToken: the same
  logic in Dart, where the payload fields are read with checked casts
  (res[data][token] as String, res[data][expiration] as int).
* the React player component (HLSPlayer), refreshTokensIfNeeded and the
  hls.js xhrSetup hook: the same refresh check inlined into the player,
  with the catch block swallowing fetch failures, and request-time
  injection of token / exp query parameters.

Each is embedded below as a pure Lean function over an explicit state,
with the wall clock and the fetch outcome passed as arguments.  JavaScript
and Dart dynamic values that can be null / undefined are modelled with
Option; JS falsiness of strings (null, undefined and the empty string) and
of numbers (undefined and 0) is modelled explicitly.
-/

/-- Head-of-list match used by the substring search below. -/
def headMatch : List Char → List Char → Bool
  | _, [] => true
  | [], _ :: _ => false
  | c :: cs, d :: ds => c = d && headMatch cs ds

/-- Substring search over character lists. -/
def subSearch : List Char → List Char → Bool
  | [], sub => sub.isEmpty
  | c :: cs, sub => headMatch (c :: cs) sub || subSearch cs sub

/-- Model of the JavaScript String.includes method. -/
def strIncludes (s sub : String) : Bool := subSearch s.toList sub.toList

/-- JS falsiness of a nullable string: null, undefined and the empty string
are falsy. -/
def strFalsy : Option String → Bool
  | none => true
  | some s => s == ""

/-- JS truthiness of a nullable number: undefined and 0 are falsy. -/
def numTruthy : Option Int → Bool
  | none => false
  | some v => v != 0

namespace HlsApiDart

/-- Mutable fields of the Dart TokenRefreshFunction object:
playlistToken starts null, playlistExpiry starts 0. -/
structure TokenState where
  playlistToken : Option String
  playlistExpiry : Int
deriving Repr, DecidableEq

/-- Freshly constructed TokenRefreshFunction. -/
def initState : TokenState := ⟨none, 0⟩

/-- Dart _needsRefresh(expiry, threshold), with the clock reading
(DateTime.now in seconds) passed explicitly as now. -/
def needsRefresh (expiry threshold now : Int) : Bool :=
  let timeRemaining := expiry - now
  decide (timeRemaining < threshold)

/-- Payload of the awaited fetch: the value found at key data, when the
chained lookups and checked casts can see it.  token is the value at
res[data][token] when it is a non-null String, expiration likewise for a
non-null int. -/
structure ResData where
  token : Option String
  expiration : Option Int
deriving Repr, DecidableEq

/-- Decoded JSON response res: data is none when res has no data map
(so that res[data][token] throws on the null subscript). -/
structure Res where
  data : Option ResData
deriving Repr, DecidableEq

/-- Observable outcome of one refreshToken() call: the value the Future
completes with (or an error), the object state afterwards, and how many
times the fetch was invoked during the call. -/
structure Outcome where
  result : Except Unit (Option String × Int)
  state : TokenState
  fetchCount : Nat
deriving Repr

/-- Dart TokenRefreshFunction.refreshToken, hls_api.dart lines 93-110.
The fetch argument is the outcome of awaiting _getPlaylistAccess(); the
static threshold is the hard-coded 15.  The two assignments run in source
order: the token cast runs first, so a payload whose token is a valid
String but whose expiration fails the int cast leaves the token already
assigned when the error is rethrown. -/
def refreshToken (st : TokenState) (now : Int) (fetch : Except Unit Res) :
    Outcome :=
  if st.playlistToken.isNone || needsRefresh st.playlistExpiry 15 now then
    match fetch with
    | .error e => ⟨.error e, st, 1⟩
    | .ok res =>
      match res.data with
      | none => ⟨.error (), st, 1⟩
      | some d =>
        match d.token with
        | none => ⟨.error (), st, 1⟩
        | some t =>
          match d.expiration with
          | none => ⟨.error (), ⟨some t, st.playlistExpiry⟩, 1⟩
          | some e => ⟨.ok (some t, e), ⟨some t, e⟩, 1⟩
  else ⟨.ok (st.playlistToken, st.playlistExpiry), st, 0⟩

end HlsApiDart

namespace HlsApiJs

/-- Closure state of createTokenRefreshFunction: playlistToken starts
null, playlistExpiry starts 0.  After a refresh either field holds
whatever the payload carried, so both are nullable (undefined is none). -/
structure TokenState where
  playlistToken : Option String
  playlistExpiry : Option Int
deriving Repr, DecidableEq

/-- State right after createTokenRefreshFunction() is called. -/
def initState : TokenState := ⟨none, some 0⟩

/-- JS needsRefresh(expiry, threshold) with the clock reading passed as
now.  When expiry is undefined, expiry - now is NaN and NaN < threshold
is false. -/
def needsRefresh (expiry : Option Int) (threshold now : Int) : Bool :=
  match expiry with
  | none => false
  | some e =>
    let timeRemaining := e - now
    decide (timeRemaining < threshold)

/-- Fields of res.data: either may be absent (undefined reads). -/
structure ResData where
  token : Option String
  expiration : Option Int
deriving Repr, DecidableEq

/-- Decoded response res: data is none when res.data is undefined (so
that res.data.token throws a TypeError). -/
structure Res where
  data : Option ResData
deriving Repr, DecidableEq

/-- Observable outcome of one call of the returned async function. -/
structure Outcome where
  result : Except Unit (Option String × Option Int)
  state : TokenState
  fetchCount : Nat
deriving Repr

/-- The async closure returned by createTokenRefreshFunction,
hlsApi.js lines 89-105.  The guard !playlistToken is JS falsiness
(null and the empty string both refetch); reading res.data.token on a
missing data object throws, and the catch block rethrows; otherwise both
closure variables receive the payload fields, undefined included. -/
def refreshToken (st : TokenState) (now : Int) (fetch : Except Unit Res) :
    Outcome :=
  if strFalsy st.playlistToken || needsRefresh st.playlistExpiry 15 now then
    match fetch with
    | .error e => ⟨.error e, st, 1⟩
    | .ok res =>
      match res.data with
      | none => ⟨.error (), st, 1⟩
      | some d =>
        let st' : TokenState := ⟨d.token, d.expiration⟩
        ⟨.ok (st'.playlistToken, st'.playlistExpiry), st', 1⟩
  else ⟨.ok (st.playlistToken, st.playlistExpiry), st, 0⟩

end HlsApiJs

namespace HlsPlayerReact

/-- The tokenRef.current object of the HLSPlayer component:
playlistToken starts null, playlistExpiry starts 0; after a refresh either
field may hold undefined when the callback payload omitted it. -/
structure TokenRef where
  playlistToken : Option String
  playlistExpiry : Option Int
deriving Repr, DecidableEq

/-- Initial tokenRef.current value. -/
def initState : TokenRef := ⟨none, some 0⟩

/-- needsRefresh as inlined in the component, identical to the hlsApi
version. -/
def needsRefresh (expiry : Option Int) (threshold now : Int) : Bool :=
  match expiry with
  | none => false
  | some e =>
    let timeRemaining := e - now
    decide (timeRemaining < threshold)

/-- Resolved value of the tokenRefreshMethod callback: either property
may be absent. -/
structure FetchResult where
  playlistToken : Option String
  playlistExpiry : Option Int
deriving Repr, DecidableEq

/-- refreshTokensIfNeeded from the HLSPlayer component.  hasCallback is
whether tokenRefreshMethod was supplied; fetch is the outcome of awaiting
it.  Every branch resolves (the catch block has no rethrow): the Except
result records that the async function never rejects, and the Nat counts
callback invocations during the call. -/
def refreshTokensIfNeeded (hasCallback : Bool) (st : TokenRef)
    (threshold now : Int) (fetch : Except Unit FetchResult) :
    Except Unit (TokenRef × Nat) :=
  if !hasCallback then .ok (st, 0)
  else if strFalsy st.playlistToken || needsRefresh st.playlistExpiry threshold now then
    match fetch with
    | .error _ => .ok (st, 1)
    | .ok r => .ok (⟨r.playlistToken, r.playlistExpiry⟩, 1)
  else .ok (st, 0)

/-- What the xhrSetup hook does to the request: either it never calls
xhr.open, leaving the request to go out with its URL unmodified, or it
reopens the request on the URL with token and exp set as query
parameters (the WHATWG-URL / string-append serialization of that URL is
abstracted; the constructor records the url and the two injected
values). -/
inductive XhrOpen where
  | unmodified (url : String)
  | injected (url : String) (token : String) (exp : Int)
deriving Repr, DecidableEq

/-- The hls.js xhrSetup hook of the HLSPlayer component.  On a playlist
or segment URL it first awaits refreshTokensIfNeeded, then injects the
stored credential when playlistToken and playlistExpiry are both truthy
(JS truthiness: null, undefined, the empty string and 0 are falsy). -/
def xhrSetup (hasCallback : Bool) (st : TokenRef) (threshold now : Int)
    (fetch : Except Unit FetchResult) (url : String) : TokenRef × XhrOpen :=
  if strIncludes url ".m3u8" || strIncludes url ".ts" then
    match refreshTokensIfNeeded hasCallback st threshold now fetch with
    | .error _ => (st, .unmodified url)
    | .ok (st', _) =>
      match st'.playlistToken, st'.playlistExpiry with
      | some t, some e =>
        if t != "" && e != 0 then (st', .injected url t e)
        else (st', .unmodified url)
      | _, _ => (st', .unmodified url)
  else (st, .unmodified url)

end HlsPlayerReact

/-- Specification-side freshness predicate, stated in the spec as
isFresh(credential, at) = expiresAt - at >= refreshThreshold; defined
here from those words to be compared with the needsRefresh check of the
source. -/
def isFreshSpec (expiresAt t threshold : Int) : Bool :=
  decide (threshold ≤ expiresAt - t)

/-! Helper lemmas: branch equations for the three embeddings, shared by
the claim theorems below. -/

theorem HlsApiDart.trigger_iff (st : TokenState) (now : Int) :
    (st.playlistToken.isNone || needsRefresh st.playlistExpiry 15 now) = true ↔
      (st.playlistToken = none ∨ st.playlistExpiry - now < 15) := by
  simp [needsRefresh, Option.isNone_iff_eq_none]

theorem HlsApiDart.refreshToken_noTrigger (st : TokenState) (now : Int)
    (f : Except Unit Res)
    (h : (st.playlistToken.isNone || needsRefresh st.playlistExpiry 15 now) = false) :
    refreshToken st now f =
      ⟨.ok (st.playlistToken, st.playlistExpiry), st, 0⟩ := by
  unfold refreshToken
  rw [h]
  simp

theorem HlsApiDart.refreshToken_trigger_count (st : TokenState) (now : Int)
    (f : Except Unit Res)
    (h : (st.playlistToken.isNone || needsRefresh st.playlistExpiry 15 now) = true) :
    (refreshToken st now f).fetchCount = 1 := by
  unfold refreshToken
  rw [h]
  rcases f with e | ⟨_ | ⟨_ | t, _ | e⟩⟩ <;> rfl

theorem HlsApiDart.refreshToken_count_le (st : TokenState) (now : Int)
    (f : Except Unit Res) : (refreshToken st now f).fetchCount ≤ 1 := by
  unfold refreshToken
  rcases f with e | ⟨_ | ⟨_ | t, _ | e⟩⟩ <;> split <;> simp

theorem HlsApiDart.refreshToken_err (st : TokenState) (now : Int)
    (h : (st.playlistToken.isNone || needsRefresh st.playlistExpiry 15 now) = true) :
    refreshToken st now (.error ()) = ⟨.error (), st, 1⟩ := by
  unfold refreshToken
  rw [h]
  rfl

theorem HlsApiDart.refreshToken_ok (st : TokenState) (now : Int)
    (t : String) (e : Int)
    (h : (st.playlistToken.isNone || needsRefresh st.playlistExpiry 15 now) = true) :
    refreshToken st now (.ok ⟨some ⟨some t, some e⟩⟩) =
      ⟨.ok (some t, e), ⟨some t, e⟩, 1⟩ := by
  unfold refreshToken
  rw [h]
  rfl

theorem HlsApiDart.refreshToken_noData (st : TokenState) (now : Int)
    (h : (st.playlistToken.isNone || needsRefresh st.playlistExpiry 15 now) = true) :
    refreshToken st now (.ok ⟨none⟩) = ⟨.error (), st, 1⟩ := by
  unfold refreshToken
  rw [h]
  rfl

theorem HlsApiDart.refreshToken_noToken (st : TokenState) (now : Int)
    (e : Option Int)
    (h : (st.playlistToken.isNone || needsRefresh st.playlistExpiry 15 now) = true) :
    refreshToken st now (.ok ⟨some ⟨none, e⟩⟩) = ⟨.error (), st, 1⟩ := by
  unfold refreshToken
  rw [h]
  rfl

theorem HlsApiDart.refreshToken_noExpiration (st : TokenState) (now : Int)
    (t : String)
    (h : (st.playlistToken.isNone || needsRefresh st.playlistExpiry 15 now) = true) :
    refreshToken st now (.ok ⟨some ⟨some t, none⟩⟩) =
      ⟨.error (), ⟨some t, st.playlistExpiry⟩, 1⟩ := by
  unfold refreshToken
  rw [h]
  rfl

theorem HlsApiJs.jsRefresh_noTrigger (st : TokenState) (now : Int)
    (f : Except Unit Res)
    (h : (strFalsy st.playlistToken || needsRefresh st.playlistExpiry 15 now) = false) :
    refreshToken st now f =
      ⟨.ok (st.playlistToken, st.playlistExpiry), st, 0⟩ := by
  unfold refreshToken
  rw [h]
  simp

theorem HlsApiJs.jsRefresh_trigger_count (st : TokenState) (now : Int)
    (f : Except Unit Res)
    (h : (strFalsy st.playlistToken || needsRefresh st.playlistExpiry 15 now) = true) :
    (refreshToken st now f).fetchCount = 1 := by
  unfold refreshToken
  rw [h]
  rcases f with e | ⟨_ | d⟩ <;> rfl

theorem HlsApiJs.jsRefresh_count_le (st : TokenState) (now : Int)
    (f : Except Unit Res) : (refreshToken st now f).fetchCount ≤ 1 := by
  unfold refreshToken
  rcases f with e | ⟨_ | d⟩ <;> split <;> simp

theorem HlsApiJs.jsRefresh_err (st : TokenState) (now : Int)
    (h : (strFalsy st.playlistToken || needsRefresh st.playlistExpiry 15 now) = true) :
    refreshToken st now (.error ()) = ⟨.error (), st, 1⟩ := by
  unfold refreshToken
  rw [h]
  rfl

theorem HlsApiJs.jsRefresh_noData (st : TokenState) (now : Int)
    (h : (strFalsy st.playlistToken || needsRefresh st.playlistExpiry 15 now) = true) :
    refreshToken st now (.ok ⟨none⟩) = ⟨.error (), st, 1⟩ := by
  unfold refreshToken
  rw [h]
  rfl

theorem HlsApiJs.jsRefresh_withData (st : TokenState) (now : Int)
    (d : ResData)
    (h : (strFalsy st.playlistToken || needsRefresh st.playlistExpiry 15 now) = true) :
    refreshToken st now (.ok ⟨some d⟩) =
      ⟨.ok (d.token, d.expiration), ⟨d.token, d.expiration⟩, 1⟩ := by
  unfold refreshToken
  rw [h]
  rfl

theorem HlsPlayerReact.refresh_noCallback (st : TokenRef) (thr now : Int)
    (f : Except Unit FetchResult) :
    refreshTokensIfNeeded false st thr now f = .ok (st, 0) := rfl

theorem HlsPlayerReact.refresh_noTrigger (st : TokenRef) (thr now : Int)
    (f : Except Unit FetchResult)
    (h : (strFalsy st.playlistToken || needsRefresh st.playlistExpiry thr now) = false) :
    refreshTokensIfNeeded true st thr now f = .ok (st, 0) := by
  unfold refreshTokensIfNeeded
  simp [h]

theorem HlsPlayerReact.refresh_err (st : TokenRef) (thr now : Int)
    (h : (strFalsy st.playlistToken || needsRefresh st.playlistExpiry thr now) = true) :
    refreshTokensIfNeeded true st thr now (.error ()) = .ok (st, 1) := by
  unfold refreshTokensIfNeeded
  simp [h]

theorem HlsPlayerReact.refresh_ok (st : TokenRef) (thr now : Int)
    (r : FetchResult)
    (h : (strFalsy st.playlistToken || needsRefresh st.playlistExpiry thr now) = true) :
    refreshTokensIfNeeded true st thr now (.ok r) =
      .ok (⟨r.playlistToken, r.playlistExpiry⟩, 1) := by
  unfold refreshTokensIfNeeded
  simp [h]

theorem HlsPlayerReact.refresh_resolves (hc : Bool) (st : TokenRef)
    (thr now : Int) (f : Except Unit FetchResult) :
    ∃ p : TokenRef × Nat,
      refreshTokensIfNeeded hc st thr now f = .ok p ∧ p.2 ≤ 1 := by
  cases hc
  · exact ⟨(st, 0), refresh_noCallback st thr now f, by simp⟩
  · by_cases h : (strFalsy st.playlistToken || needsRefresh st.playlistExpiry thr now) = true
    · rcases f with e | r
      · exact ⟨(st, 1), refresh_err st thr now h, by simp⟩
      · exact ⟨(⟨r.playlistToken, r.playlistExpiry⟩, 1), refresh_ok st thr now r h, by simp⟩
    · exact ⟨(st, 0), refresh_noTrigger st thr now f (by simpa using h), by simp⟩

/-! Claim theorems. -/

/-- C1: getCredential invokes the fetch callback iff the stored token is
unset or the remaining lifetime expiresAt - now is below the refresh
threshold (15), and at most once per call; the first call always fetches,
and a call on a fresh credential does not invoke the callback.  Stated on
the Dart manager, whose guard is exactly playlistToken == null, and on the
JS manager, whose guard !playlistToken is JS falsiness of the token. -/
theorem getCredential_fetch_iff :
    (∀ (st : HlsApiDart.TokenState) (now : Int) (f : Except Unit HlsApiDart.Res),
        ((HlsApiDart.refreshToken st now f).fetchCount = 1 ↔
          (st.playlistToken = none ∨ st.playlistExpiry - now < 15)) ∧
        (HlsApiDart.refreshToken st now f).fetchCount ≤ 1) ∧
    (∀ (st : HlsApiJs.TokenState) (now : Int) (f : Except Unit HlsApiJs.Res),
        ((HlsApiJs.refreshToken st now f).fetchCount = 1 ↔
          (strFalsy st.playlistToken = true ∨
            HlsApiJs.needsRefresh st.playlistExpiry 15 now = true)) ∧
        (HlsApiJs.refreshToken st now f).fetchCount ≤ 1) ∧
    (∀ (now : Int) (f : Except Unit HlsApiDart.Res),
        (HlsApiDart.refreshToken HlsApiDart.initState now f).fetchCount = 1) ∧
    (∀ (st : HlsApiDart.TokenState) (now : Int) (f : Except Unit HlsApiDart.Res),
        st.playlistToken ≠ none → 15 ≤ st.playlistExpiry - now →
        (HlsApiDart.refreshToken st now f).fetchCount = 0) := by
  refine ⟨fun st now f => ⟨?_, HlsApiDart.refreshToken_count_le st now f⟩,
    fun st now f => ⟨?_, HlsApiJs.jsRefresh_count_le st now f⟩, ?_, ?_⟩
  · by_cases htr : (st.playlistToken.isNone ||
        HlsApiDart.needsRefresh st.playlistExpiry 15 now) = true
    · rw [HlsApiDart.refreshToken_trigger_count st now f htr]
      exact iff_of_true rfl ((HlsApiDart.trigger_iff st now).mp htr)
    · have h0 : (st.playlistToken.isNone ||
          HlsApiDart.needsRefresh st.playlistExpiry 15 now) = false :=
        Bool.eq_false_iff.mpr htr
      rw [HlsApiDart.refreshToken_noTrigger st now f h0]
      refine iff_of_false (by simp) fun hd => htr ?_
      exact (HlsApiDart.trigger_iff st now).mpr hd
  · by_cases htr : (strFalsy st.playlistToken ||
        HlsApiJs.needsRefresh st.playlistExpiry 15 now) = true
    · rw [HlsApiJs.jsRefresh_trigger_count st now f htr]
      exact iff_of_true rfl (by simpa using htr)
    · have h0 : (strFalsy st.playlistToken ||
          HlsApiJs.needsRefresh st.playlistExpiry 15 now) = false :=
        Bool.eq_false_iff.mpr htr
      rw [HlsApiJs.jsRefresh_noTrigger st now f h0]
      exact iff_of_false (by simp) fun hd => htr (by simpa using hd)
  · intro now f
    exact HlsApiDart.refreshToken_trigger_count _ now f rfl
  · intro st now f h1 h2
    have h0 : (st.playlistToken.isNone ||
        HlsApiDart.needsRefresh st.playlistExpiry 15 now) = false := by
      rcases st with ⟨_ | t, ex⟩
      · exact absurd rfl h1
      · simp only [Option.isNone_some, Bool.false_or, HlsApiDart.needsRefresh]
        simp only [decide_eq_false_iff_not, Int.not_lt]
        exact h2
    rw [HlsApiDart.refreshToken_noTrigger st now f h0]

/-- C1 witness: a fresh credential (token A, expiry 2000, now 100, so
that 1900 seconds remain) does not invoke the fetch callback. -/
theorem getCredential_fetch_iff_witness :
    (HlsApiDart.refreshToken ⟨some "A", 2000⟩ 100 (Except.error ())).fetchCount = 0 :=
  getCredential_fetch_iff.2.2.2 ⟨some "A", 2000⟩ 100 (Except.error ())
    (by simp) (by decide)

/-- C2: when the manager holds a previously fetched credential and a
getCredential call triggers a refresh whose fetch fails, the cached
credential is preserved unmodified (direct state inspection still reports
the old token) while the call raises the fetch error. -/
theorem fetchFailure_preserves_credential :
    (∀ (st : HlsApiDart.TokenState) (a : String) (now : Int),
        st.playlistToken = some a →
        (st.playlistToken.isNone ||
          HlsApiDart.needsRefresh st.playlistExpiry 15 now) = true →
        (HlsApiDart.refreshToken st now (Except.error ())).state = st ∧
        (HlsApiDart.refreshToken st now (Except.error ())).state.playlistToken = some a ∧
        (HlsApiDart.refreshToken st now (Except.error ())).result = Except.error ()) ∧
    (∀ (st : HlsApiJs.TokenState) (a : String) (now : Int),
        st.playlistToken = some a →
        (strFalsy st.playlistToken ||
          HlsApiJs.needsRefresh st.playlistExpiry 15 now) = true →
        (HlsApiJs.refreshToken st now (Except.error ())).state = st ∧
        (HlsApiJs.refreshToken st now (Except.error ())).state.playlistToken = some a ∧
        (HlsApiJs.refreshToken st now (Except.error ())).result = Except.error ()) := by
  constructor
  · intro st a now ha htr
    rw [HlsApiDart.refreshToken_err st now htr]
    exact ⟨rfl, ha, rfl⟩
  · intro st a now ha htr
    rw [HlsApiJs.jsRefresh_err st now htr]
    exact ⟨rfl, ha, rfl⟩

/-- C2 witness: from the state token A, expiry 2000, a refresh at now 1990
(10 seconds remaining, below the threshold) with a failing fetch leaves
token A stored and surfaces the error. -/
theorem fetchFailure_preserves_credential_witness :
    (HlsApiDart.refreshToken ⟨some "A", 2000⟩ 1990 (Except.error ())).state =
        ⟨some "A", 2000⟩ ∧
    (HlsApiDart.refreshToken ⟨some "A", 2000⟩ 1990 (Except.error ())).state.playlistToken =
        some "A" ∧
    (HlsApiDart.refreshToken ⟨some "A", 2000⟩ 1990 (Except.error ())).result =
        Except.error () :=
  fetchFailure_preserves_credential.1 ⟨some "A", 2000⟩ "A" 1990 rfl (by decide)

/-- C3 counterexample: in the React player component, refreshTokensIfNeeded
with a configured callback that rejects resolves normally from the initial
state (the catch block swallows the failure): the fetch was invoked once
and failed, yet no error reaches the caller, so fetch failures do not all
propagate. -/
theorem playerRefresh_swallows_failure :
    HlsPlayerReact.refreshTokensIfNeeded true HlsPlayerReact.initState 15 100
        (Except.error ()) = Except.ok (HlsPlayerReact.initState, 1) := rfl

/-- C3 amended: fetch failures in the legacy hlsApi managers propagate to
the immediate caller and the fetch is invoked exactly once in that call;
the player components refreshTokensIfNeeded instead always resolves
(swallowing failures, leaving the state unchanged on failure), and no
variant ever invokes the fetch more than once per call. -/
theorem fetchFailure_propagation_amended :
    (∀ (st : HlsApiJs.TokenState) (now : Int),
        (strFalsy st.playlistToken ||
          HlsApiJs.needsRefresh st.playlistExpiry 15 now) = true →
        (HlsApiJs.refreshToken st now (Except.error ())).result = Except.error () ∧
        (HlsApiJs.refreshToken st now (Except.error ())).fetchCount = 1) ∧
    (∀ (st : HlsApiDart.TokenState) (now : Int),
        (st.playlistToken.isNone ||
          HlsApiDart.needsRefresh st.playlistExpiry 15 now) = true →
        (HlsApiDart.refreshToken st now (Except.error ())).result = Except.error () ∧
        (HlsApiDart.refreshToken st now (Except.error ())).fetchCount = 1) ∧
    (∀ (hc : Bool) (st : HlsPlayerReact.TokenRef) (thr now : Int)
        (f : Except Unit HlsPlayerReact.FetchResult),
        ∃ p : HlsPlayerReact.TokenRef × Nat,
          HlsPlayerReact.refreshTokensIfNeeded hc st thr now f = Except.ok p ∧
          p.2 ≤ 1) ∧
    (∀ (st : HlsPlayerReact.TokenRef) (thr now : Int),
        (strFalsy st.playlistToken ||
          HlsPlayerReact.needsRefresh st.playlistExpiry thr now) = true →
        HlsPlayerReact.refreshTokensIfNeeded true st thr now (Except.error ()) =
          Except.ok (st, 1)) := by
  refine ⟨?_, ?_, HlsPlayerReact.refresh_resolves, HlsPlayerReact.refresh_err⟩
  · intro st now htr
    rw [HlsApiJs.jsRefresh_err st now htr]
    exact ⟨rfl, rfl⟩
  · intro st now htr
    rw [HlsApiDart.refreshToken_err st now htr]
    exact ⟨rfl, rfl⟩

/-- C3 amended witness: from the initial JS closure state a failing fetch
at now 100 surfaces the error after exactly one fetch invocation. -/
theorem fetchFailure_propagation_amended_witness :
    (HlsApiJs.refreshToken HlsApiJs.initState 100 (Except.error ())).result =
        Except.error () ∧
    (HlsApiJs.refreshToken HlsApiJs.initState 100 (Except.error ())).fetchCount = 1 :=
  fetchFailure_propagation_amended.1 HlsApiJs.initState 100 (by decide)

/-- C4: the specification predicate isFresh(credential, t), defined as
expiresAt - t >= refreshThreshold, is the exact negation of the code
needsRefresh check; needsRefresh(expiry, threshold) at clock now is true
iff expiry - now < threshold; and with exactly threshold seconds
remaining a set credential counts as fresh, so no refresh is triggered. -/
theorem isFresh_matches_needsRefresh :
    (∀ e t th : Int, isFreshSpec e t th = !HlsApiDart.needsRefresh e th t) ∧
    (∀ e th now : Int,
        HlsApiDart.needsRefresh e th now = true ↔ e - now < th) ∧
    (∀ (tok : String) (now : Int) (f : Except Unit HlsApiDart.Res),
        HlsApiDart.needsRefresh (now + 15) 15 now = false ∧
        (HlsApiDart.refreshToken ⟨some tok, now + 15⟩ now f).fetchCount = 0) := by
  refine ⟨?_, ?_, ?_⟩
  · intro e t th
    simp only [isFreshSpec, HlsApiDart.needsRefresh]
    rw [← decide_not]
    simp [Int.not_lt]
  · intro e th now
    simp [HlsApiDart.needsRefresh]
  · intro tok now f
    have hnr : HlsApiDart.needsRefresh (now + 15) 15 now = false := by
      simp [HlsApiDart.needsRefresh]
    refine ⟨hnr, ?_⟩
    have h0 : ((⟨some tok, now + 15⟩ : HlsApiDart.TokenState).playlistToken.isNone ||
        HlsApiDart.needsRefresh
          (⟨some tok, now + 15⟩ : HlsApiDart.TokenState).playlistExpiry 15 now) = false := by
      simpa using hnr
    rw [HlsApiDart.refreshToken_noTrigger _ now f h0]

/-- C5 counterexample: from the initial JS closure state, a fetch that
resolves with a data object missing the token field does not fail: the
call completes without any error, storing and returning a credential with
no token (playlistToken undefined), contradicting the claim that a
malformed payload yields a FetchError. -/
theorem malformed_payload_counterexample :
    HlsApiJs.refreshToken HlsApiJs.initState 100
        (Except.ok ⟨some ⟨none, some 999⟩⟩) =
      ⟨Except.ok (none, some 999), ⟨none, some 999⟩, 1⟩ := rfl

/-- C5 amended: a payload lacking the data object entirely makes
getCredential fail (the property read throws and the error is rethrown)
with the state unchanged; but when the data object is present with the
token or expiry field missing, the JS manager completes without error,
storing and returning the incomplete credential, while the Dart manager
raises the error from the failed cast (leaving the state unchanged when
the token is missing). -/
theorem malformed_payload_amended :
    (∀ (st : HlsApiJs.TokenState) (now : Int),
        (strFalsy st.playlistToken ||
          HlsApiJs.needsRefresh st.playlistExpiry 15 now) = true →
        HlsApiJs.refreshToken st now (Except.ok ⟨none⟩) =
          ⟨Except.error (), st, 1⟩) ∧
    (∀ (st : HlsApiJs.TokenState) (now : Int) (d : HlsApiJs.ResData),
        (strFalsy st.playlistToken ||
          HlsApiJs.needsRefresh st.playlistExpiry 15 now) = true →
        HlsApiJs.refreshToken st now (Except.ok ⟨some d⟩) =
          ⟨Except.ok (d.token, d.expiration), ⟨d.token, d.expiration⟩, 1⟩) ∧
    (∀ (st : HlsApiDart.TokenState) (now : Int),
        (st.playlistToken.isNone ||
          HlsApiDart.needsRefresh st.playlistExpiry 15 now) = true →
        HlsApiDart.refreshToken st now (Except.ok ⟨none⟩) =
          ⟨Except.error (), st, 1⟩) ∧
    (∀ (st : HlsApiDart.TokenState) (now : Int) (e : Option Int),
        (st.playlistToken.isNone ||
          HlsApiDart.needsRefresh st.playlistExpiry 15 now) = true →
        HlsApiDart.refreshToken st now (Except.ok ⟨some ⟨none, e⟩⟩) =
          ⟨Except.error (), st, 1⟩) ∧
    (∀ (st : HlsApiDart.TokenState) (now : Int) (t : String),
        (st.playlistToken.isNone ||
          HlsApiDart.needsRefresh st.playlistExpiry 15 now) = true →
        HlsApiDart.refreshToken st now (Except.ok ⟨some ⟨some t, none⟩⟩) =
          ⟨Except.error (), ⟨some t, st.playlistExpiry⟩, 1⟩) :=
  ⟨HlsApiJs.jsRefresh_noData, HlsApiJs.jsRefresh_withData,
    HlsApiDart.refreshToken_noData,
    fun st now e h => HlsApiDart.refreshToken_noToken st now e h,
    HlsApiDart.refreshToken_noExpiration⟩

/-- C5 amended witness: from the initial JS closure state, a payload with
no data object makes the call fail with the state unchanged. -/
theorem malformed_payload_amended_witness :
    HlsApiJs.refreshToken HlsApiJs.initState 100 (Except.ok ⟨none⟩) =
      ⟨Except.error (), HlsApiJs.initState, 1⟩ :=
  malformed_payload_amended.1 HlsApiJs.initState 100 (by decide)

/-- C6: a getCredential pass on a manager with no fetch callback
configured is a no-op: the player refreshTokensIfNeeded resolves without
error, leaves the state unchanged, invokes no fetch, and the credential it
exposes from the initial state has a null token. -/
theorem noCallback_noop :
    (∀ (st : HlsPlayerReact.TokenRef) (thr now : Int)
        (f : Except Unit HlsPlayerReact.FetchResult),
        HlsPlayerReact.refreshTokensIfNeeded false st thr now f =
          Except.ok (st, 0)) ∧
    HlsPlayerReact.initState.playlistToken = none :=
  ⟨fun st thr now f => HlsPlayerReact.refresh_noCallback st thr now f, rfl⟩

/-- C7 counterexample: the Dart manager, holding token old with expiry 100
at now 95 (5 seconds remaining, so a refresh triggers), given a resolved
fetch whose payload has the valid token NEW but a missing expiration,
raises the cast error after having already assigned the token: the state
becomes (NEW, 100), a torn update on a call whose fetch did not
succeed as a whole, contradicting wholesale replacement. -/
theorem torn_update_counterexample :
    HlsApiDart.refreshToken ⟨some "old", 100⟩ 95
        (Except.ok ⟨some ⟨some "NEW", none⟩⟩) =
      ⟨Except.error (), ⟨some "NEW", 100⟩, 1⟩ := rfl

/-- C7 amended: a rejected fetch never mutates the state, and neither does
a call that triggers no refresh; a resolved fetch with a well-formed
payload replaces both fields together with exactly the returned pair; but
the Dart manager, on a resolved payload whose token is a valid string and
whose expiration fails the int cast, stores the new token while keeping
the old expiry and raises the error. -/
theorem wholesale_replacement_amended :
    (∀ (st : HlsApiJs.TokenState) (now : Int),
        (HlsApiJs.refreshToken st now (Except.error ())).state = st) ∧
    (∀ (st : HlsApiDart.TokenState) (now : Int),
        (HlsApiDart.refreshToken st now (Except.error ())).state = st) ∧
    (∀ (st : HlsApiJs.TokenState) (now : Int) (d : HlsApiJs.ResData),
        (strFalsy st.playlistToken ||
          HlsApiJs.needsRefresh st.playlistExpiry 15 now) = true →
        (HlsApiJs.refreshToken st now (Except.ok ⟨some d⟩)).state =
          ⟨d.token, d.expiration⟩) ∧
    (∀ (st : HlsApiDart.TokenState) (now : Int) (t : String) (e : Int),
        (st.playlistToken.isNone ||
          HlsApiDart.needsRefresh st.playlistExpiry 15 now) = true →
        HlsApiDart.refreshToken st now (Except.ok ⟨some ⟨some t, some e⟩⟩) =
          ⟨Except.ok (some t, e), ⟨some t, e⟩, 1⟩) ∧
    (∀ (st : HlsApiDart.TokenState) (now : Int) (t : String),
        (st.playlistToken.isNone ||
          HlsApiDart.needsRefresh st.playlistExpiry 15 now) = true →
        (HlsApiDart.refreshToken st now (Except.ok ⟨some ⟨some t, none⟩⟩)).state =
          ⟨some t, st.playlistExpiry⟩ ∧
        (HlsApiDart.refreshToken st now (Except.ok ⟨some ⟨some t, none⟩⟩)).result =
          Except.error ()) ∧
    (∀ (st : HlsApiDart.TokenState) (now : Int) (f : Except Unit HlsApiDart.Res),
        (st.playlistToken.isNone ||
          HlsApiDart.needsRefresh st.playlistExpiry 15 now) = false →
        (HlsApiDart.refreshToken st now f).state = st) := by
  refine ⟨?_, ?_, ?_, fun st now t e h => HlsApiDart.refreshToken_ok st now t e h,
    ?_, ?_⟩
  · intro st now
    by_cases htr : (strFalsy st.playlistToken ||
        HlsApiJs.needsRefresh st.playlistExpiry 15 now) = true
    · rw [HlsApiJs.jsRefresh_err st now htr]
    · rw [HlsApiJs.jsRefresh_noTrigger st now _ (Bool.eq_false_iff.mpr htr)]
  · intro st now
    by_cases htr : (st.playlistToken.isNone ||
        HlsApiDart.needsRefresh st.playlistExpiry 15 now) = true
    · rw [HlsApiDart.refreshToken_err st now htr]
    · rw [HlsApiDart.refreshToken_noTrigger st now _ (Bool.eq_false_iff.mpr htr)]
  · intro st now d htr
    rw [HlsApiJs.jsRefresh_withData st now d htr]
  · intro st now t htr
    rw [HlsApiDart.refreshToken_noExpiration st now t htr]
    exact ⟨rfl, rfl⟩
  · intro st now f htr
    rw [HlsApiDart.refreshToken_noTrigger st now f htr]

/-- C7 amended witness: a well-formed payload (token NEW, expiration 400)
fetched from the stale state (old, 100) at now 95 replaces both fields
together. -/
theorem wholesale_replacement_amended_witness :
    HlsApiDart.refreshToken ⟨some "old", 100⟩ 95
        (Except.ok ⟨some ⟨some "NEW", some 400⟩⟩) =
      ⟨Except.ok (some "NEW", 400), ⟨some "NEW", 400⟩, 1⟩ :=
  wholesale_replacement_amended.2.2.2.1 ⟨some "old", 100⟩ 95 "NEW" 400 (by decide)

/-- C8: the concrete scenario of the spec on the Dart manager, whose
threshold is the hard-coded 15: from the unset state at now 100 a call
whose fetch yields (X, 200) returns (X, 200); at now 190 (10 seconds
remaining, below 15) a second call fetches again and, with the fetch
yielding (Y, 400), returns (Y, 400). -/
theorem concrete_scenario :
    HlsApiDart.refreshToken HlsApiDart.initState 100
        (Except.ok ⟨some ⟨some "X", some 200⟩⟩) =
      ⟨Except.ok (some "X", 200), ⟨some "X", 200⟩, 1⟩ ∧
    HlsApiDart.refreshToken
        (HlsApiDart.refreshToken HlsApiDart.initState 100
          (Except.ok ⟨some ⟨some "X", some 200⟩⟩)).state 190
        (Except.ok ⟨some ⟨some "Y", some 400⟩⟩) =
      ⟨Except.ok (some "Y", 400), ⟨some "Y", 400⟩, 1⟩ :=
  ⟨rfl, rfl⟩

/-- C9: a stored credential round-trips unchanged through a getCredential
call that does not trigger a fetch: the call returns exactly the stored
token and expiry, mutates nothing, and invokes no fetch. -/
theorem stored_credential_roundtrip :
    (∀ (st : HlsApiDart.TokenState) (b : String) (now : Int)
        (f : Except Unit HlsApiDart.Res),
        st.playlistToken = some b → 15 ≤ st.playlistExpiry - now →
        HlsApiDart.refreshToken st now f =
          ⟨Except.ok (some b, st.playlistExpiry), st, 0⟩) ∧
    (∀ (st : HlsApiJs.TokenState) (b : String) (ex now : Int)
        (f : Except Unit HlsApiJs.Res),
        st.playlistToken = some b → b ≠ "" → st.playlistExpiry = some ex →
        15 ≤ ex - now →
        HlsApiJs.refreshToken st now f =
          ⟨Except.ok (some b, some ex), st, 0⟩) := by
  constructor
  · intro st b now f hb hfresh
    have h0 : (st.playlistToken.isNone ||
        HlsApiDart.needsRefresh st.playlistExpiry 15 now) = false := by
      rw [hb]
      simp only [Option.isNone_some, Bool.false_or, HlsApiDart.needsRefresh]
      simp only [decide_eq_false_iff_not, Int.not_lt]
      exact hfresh
    rw [HlsApiDart.refreshToken_noTrigger st now f h0, hb]
  · intro st b ex now f hb hbne hex hfresh
    have h0 : (strFalsy st.playlistToken ||
        HlsApiJs.needsRefresh st.playlistExpiry 15 now) = false := by
      rw [hb, hex]
      simp only [strFalsy, HlsApiJs.needsRefresh]
      simp only [Bool.or_eq_false_iff, beq_eq_false_iff_ne, ne_eq,
        decide_eq_false_iff_not, Int.not_lt]
      exact ⟨hbne, hfresh⟩
    rw [HlsApiJs.jsRefresh_noTrigger st now f h0, hb, hex]

/-- C9 witness: the credential (B, 5000) at now 100 (4900 seconds
remaining) round-trips unchanged with no fetch invoked. -/
theorem stored_credential_roundtrip_witness :
    HlsApiDart.refreshToken ⟨some "B", 5000⟩ 100 (Except.error ()) =
      ⟨Except.ok (some "B", 5000), ⟨some "B", 5000⟩, 0⟩ :=
  stored_credential_roundtrip.1 ⟨some "B", 5000⟩ "B" 100 (Except.error ())
    rfl (by decide)

/-- C10: in the React player xhrSetup hook, the stored credential is
injected as token and exp query parameters only when the request URL
contains .m3u8 or .ts and the (post-refresh) stored token is non-null and
nonempty and the stored expiry is a nonzero number; equivalently, every
request not meeting all of these conditions goes out with its URL
unmodified (the hook never calls xhr.open on it). -/
theorem xhrSetup_inject_only_when (hc : Bool) (st : HlsPlayerReact.TokenRef)
    (thr now : Int) (f : Except Unit HlsPlayerReact.FetchResult)
    (url u tok : String) (e : Int)
    (h : (HlsPlayerReact.xhrSetup hc st thr now f url).2 =
      HlsPlayerReact.XhrOpen.injected u tok e) :
    (strIncludes url ".m3u8" || strIncludes url ".ts") = true ∧ u = url ∧
      (HlsPlayerReact.xhrSetup hc st thr now f url).1.playlistToken = some tok ∧
      tok ≠ "" ∧
      (HlsPlayerReact.xhrSetup hc st thr now f url).1.playlistExpiry = some e ∧
      e ≠ 0 := by
  obtain ⟨⟨st', n⟩, hr, -⟩ := HlsPlayerReact.refresh_resolves hc st thr now f
  unfold HlsPlayerReact.xhrSetup at h ⊢
  rw [hr] at h ⊢
  by_cases hurl : (strIncludes url ".m3u8" || strIncludes url ".ts") = true
  · rw [if_pos hurl] at h ⊢
    rcases st' with ⟨_ | t, _ | e'⟩ <;> dsimp only at h ⊢
    · simp at h
    · simp at h
    · simp at h
    · by_cases hb : (t != "" && e' != 0) = true
      · rw [if_pos hb] at h ⊢
        dsimp only at h ⊢
        obtain ⟨h1, h2, h3⟩ : url = u ∧ t = tok ∧ e' = e := by simpa using h
        have hb' : t ≠ "" ∧ e' ≠ 0 := by simpa using hb
        exact ⟨hurl, h1.symm, by rw [h2], h2 ▸ hb'.1, by rw [h3], h3 ▸ hb'.2⟩
      · rw [if_neg hb] at h
        simp at h
  · rw [if_neg hurl] at h
    simp at h

/-- C10 witness: a segment request seg.ts with the stored credential
(T, 5) and no refresh callback gets token T and exp 5 injected, and the
injection conditions all hold there. -/
theorem xhrSetup_inject_only_when_witness :
    (strIncludes "seg.ts" ".m3u8" || strIncludes "seg.ts" ".ts") = true ∧
      "seg.ts" = "seg.ts" ∧
      (HlsPlayerReact.xhrSetup false ⟨some "T", some 5⟩ 15 100
        (Except.error ()) "seg.ts").1.playlistToken = some "T" ∧
      "T" ≠ "" ∧
      (HlsPlayerReact.xhrSetup false ⟨some "T", some 5⟩ 15 100
        (Except.error ()) "seg.ts").1.playlistExpiry = some 5 ∧
      (5 : Int) ≠ 0 :=
  xhrSetup_inject_only_when false ⟨some "T", some 5⟩ 15 100 (Except.error ())
    "seg.ts" "seg.ts" "T" 5 rfl
